import Mathlib

/- Shallow embedding of the HRMS-lite attendance and reporting logic.
   Embedded sources: the Reports component (src/unnamed/part_000), the
   attendance view (src/unnamed/part_001) and the API utility module
   (src/unnamed/part_002). The backend state machine and report aggregator
   are not under src/; the definitions marked "Modelled from the spec"
   follow spec.md for those parts. Instants and dates are minute counts /
   day numbers on the single canonical clock of the spec. -/

/-- Attendance status enumeration (spec section 3; apiUtils.getStatusColor in
src/unnamed/part_002 lists the same five values). -/
inductive AttStatus
  | present
  | absent
  | late
  | halfDay
  | workFromHome
deriving DecidableEq

/-- One attendance record per employee and day (spec section 3). -/
structure AttendanceRecord where
  employee_id : String
  date : Nat
  status : AttStatus
  check_in_time : Option Nat
  check_out_time : Option Nat
  is_auto_checkout : Bool
  working_minutes : Nat
deriving DecidableEq

/-- Embeds apiUtils.calculateAttendanceRate (src/unnamed/part_002, lines
617-620): if total is 0 the rate is 0, otherwise Math.round of
present / total * 100. Math.round on the exact nonnegative rational rounds
half up, which over naturals is (200 * present + total) / (2 * total). -/
def calculateAttendanceRate (present total : Nat) : Nat :=
  if total = 0 then 0 else (200 * present + total) / (2 * total)

/-- Embeds formatDuration (src/unnamed/part_001, lines 104-109). The JS guard
catches a missing argument and every value not greater than 0 and renders
"0h 0m" for them; for positive minute counts Math.floor of m / 60 is natural
division and the remainder is m mod 60. -/
def formatDuration (minutes : Option Int) : String :=
  match minutes with
  | none => "0h 0m"
  | some m =>
      if m ≤ 0 then "0h 0m"
      else toString (m.toNat / 60) ++ "h " ++ toString (m.toNat % 60) ++ "m"

/-- Filter state of the Reports component (src/unnamed/part_000, lines 6-11);
the empty string is the JS falsy value standing for an absent filter. -/
structure Filters where
  dateFrom : String
  dateTo : String
  department : String
  employeeId : String
deriving DecidableEq

/-- Slice of the Reports component state read and written by generateReport
and exportReport (src/unnamed/part_000, lines 12-17 and the notification
callback). -/
structure ReportsState (α : Type) where
  reportData : Option α
  lastGenerated : Option Nat
  error : String
  notifications : List String
deriving DecidableEq

/-- Embeds generateReport (src/unnamed/part_000, lines 127-193) as one step:
the four validation guards in source order, then the report call of the
selected type, whose outcome is passed in as apiResult. Returns the updated
component state together with whether the report-generation call was issued.
On success the data and the lastGenerated stamp are stored and the error
cleared; on failure only the error message and a notification are set. -/
def generateReport {α : Type} (reportType : String) (filters : Filters)
    (apiResult : Except String α) (now : Nat) (st : ReportsState α) :
    ReportsState α × Bool :=
  if reportType = "" then
    ({ st with
       error := "Please select a report type"
       notifications := st.notifications ++ ["Please select a report type"] },
     false)
  else if filters.dateFrom = "" ∨ filters.dateTo = "" then
    ({ st with
       error := "Please select date range"
       notifications := st.notifications ++ ["Please select date range"] },
     false)
  else if reportType = "employee-performance" ∧ filters.employeeId = "" then
    ({ st with
       error := "Please select an employee for performance report"
       notifications := st.notifications ++ ["Please select an employee"] },
     false)
  else if reportType = "department" ∧ filters.department = "" then
    ({ st with
       error := "Please select a department for department report"
       notifications := st.notifications ++ ["Please select a department"] },
     false)
  else if reportType = "attendance-summary" ∨
      reportType = "employee-performance" ∨ reportType = "department" then
    match apiResult with
    | Except.ok d =>
        ({ st with
           reportData := some d
           lastGenerated := some now
           error := "" }, true)
    | Except.error m =>
        ({ st with
           error := m
           notifications := st.notifications ++ [m] }, true)
  else
    ({ st with
       error := "Invalid report type"
       notifications := st.notifications ++ ["Invalid report type"] }, false)

/-- Outcome of exportReport: the downloaded file as a filename and content
pair, when one is produced, plus the notifications emitted. -/
structure ExportResult where
  file : Option (String × String)
  notifications : List String
deriving DecidableEq

/-- Embeds exportReport (src/unnamed/part_000, lines 195-220): with no report
data only a warning is emitted and no file is produced; otherwise the
serialization of the data is downloaded under the name built from the report
type and the current day, and a success notification is emitted. The JSON
serializer is passed in as stringify. -/
def exportReport {α : Type} (stringify : α → String) (reportType today : String)
    (reportData : Option α) : ExportResult :=
  match reportData with
  | none => ⟨none, ["No report data to export"]⟩
  | some d =>
      let filename := reportType ++ "-report-" ++ today ++ ".json"
      ⟨some (filename, stringify d), ["Report exported as " ++ filename]⟩

/-- Controller state for auto refresh (src/unnamed/part_000, lines 22-29):
the retry counter, the enabled flag of refreshSettings, the pauseOnError and
maxRetries settings, and the notifications emitted so far. -/
structure RefreshCtl where
  retryCount : Nat
  enabled : Bool
  pauseOnError : Bool
  maxRetries : Nat
  notifications : List String
deriving DecidableEq

/-- Embeds performAutoRefresh (src/unnamed/part_000, lines 83-101). On a
successful refresh the functional update on line 87 resets the stored retry
counter to 0; on a failure the one on line 90 sets it to its current value
plus one. The retryCount read by the pause test on line 92, however, is the
render-scope binding held by the closure the refresh interval invokes: it was
captured when startAutoRefresh created the interval and is pinned for the
interval's lifetime, since a state setter never rebinds it and the effect
that recreates the interval (line 42) does not list retryCount among its
dependencies. That snapshot is the capturedRetryCount parameter. When the
pause test succeeds, enabled is cleared and the pause notification is
emitted. -/
def performAutoRefresh (capturedRetryCount : Nat) (success : Bool)
    (st : RefreshCtl) : RefreshCtl :=
  if success then { st with retryCount := 0 }
  else if st.pauseOnError ∧ st.maxRetries ≤ capturedRetryCount then
    { st with
      retryCount := st.retryCount + 1
      enabled := false
      notifications := st.notifications ++
        ["Auto-refresh paused after " ++ toString st.maxRetries ++
          " failed attempts"] }
  else { st with retryCount := st.retryCount + 1 }

/-- Events of the refresh trigger loop: an interval tick firing, or the
completion of an in-flight refresh call. -/
inductive RefreshEvent
  | tick
  | complete
deriving DecidableEq

/-- Embeds the refresh trigger callback installed by startAutoRefresh
(src/unnamed/part_000, lines 61-65): on each tick it runs performAutoRefresh
unless isRefreshing holds. The isRefreshing it consults is the render-scope
constant captured when startAutoRefresh created the interval: setIsRefreshing
rebinds the state for later renders, never inside this closure, and the
effect that recreates the interval (line 42) does not list isRefreshing among
its dependencies, so the guard tests a fixed snapshot for the lifetime of the
interval. The function folds the event trace over the number of in-flight
report-generation calls. -/
def triggerLoop (captured : Bool) : List RefreshEvent → Nat → Nat
  | [], inFlight => inFlight
  | RefreshEvent.tick :: evs, inFlight =>
      triggerLoop captured evs (if captured then inFlight else inFlight + 1)
  | RefreshEvent.complete :: evs, inFlight =>
      triggerLoop captured evs (inFlight - 1)

/-- Models clearInterval over the multiset of live timer ids: clearing a held
handle removes that timer, a null handle clears nothing. -/
def clearIntervalOpt (live : List Nat) : Option Nat → List Nat
  | some id => live.erase id
  | none => live

/-- Embeds stopAutoRefresh (src/unnamed/part_000, lines 71-81): it clears
whichever of the two interval handles, refreshInterval and countdownInterval,
are visible in the render scope the function closure was taken from, and
leaves every other live timer running. -/
def stopAutoRefresh (refreshInterval countdownInterval : Option Nat)
    (live : List Nat) : List Nat :=
  clearIntervalOpt (clearIntervalOpt live refreshInterval) countdownInterval

/-- Running per-status counters, the shared group-by aggregation primitive of
spec section 4.3. -/
structure SummaryCounts where
  present_count : Nat
  absent_count : Nat
  late_count : Nat
deriving DecidableEq

/-- Folds one record into the running counters: Present, Absent and Late each
bump their counter, other statuses leave the counters unchanged. -/
def tallyRecord (c : SummaryCounts) (r : AttendanceRecord) : SummaryCounts :=
  match r.status with
  | AttStatus.present => { c with present_count := c.present_count + 1 }
  | AttStatus.absent => { c with absent_count := c.absent_count + 1 }
  | AttStatus.late => { c with late_count := c.late_count + 1 }
  | _ => c

/-- The Attendance Summary report shape: the status counters and the overall
attendance rate in integer percent. -/
structure AttendanceSummary where
  counts : SummaryCounts
  attendance_rate : Nat
deriving DecidableEq

/-- Modelled from the spec: the backend aggregator producing the Attendance
Summary is not under src/ (only its client in src/unnamed/part_000 is). Per
spec section 4.3 it counts Present, Absent and Late across the filtered
record set and computes attendance_rate as round of
100 * (present + late) / total, where total is the count of non-empty days
in range and a zero total yields rate 0 rather than an error; the rounding
is the src helper calculateAttendanceRate applied to present + late over
total. -/
def attendanceSummary (records : List AttendanceRecord) : AttendanceSummary :=
  let c := records.foldl tallyRecord ⟨0, 0, 0⟩
  ⟨c, calculateAttendanceRate (c.present_count + c.late_count) records.length⟩

/-- Nearest-integer rounding of num / den over naturals, half rounded up,
written from the round notation the spec uses. -/
def specRound (num den : Nat) : Nat := (2 * num + den) / (2 * den)

/-- The attendance-rate formula exactly as the spec words it: round of
100 * (present + late) / total, and 0 instead of a division error when
total is 0. -/
def specAttendanceRate (present late total : Nat) : Nat :=
  if total = 0 then 0 else specRound (100 * (present + late)) total

/-- Typed failures of the report aggregator (spec section 7). -/
inductive ReportError
  | invalidRange
  | missingFilter
deriving DecidableEq

/-- Modelled from the spec: the backend report generation over a date range is
not under src/. Per spec section 4.3 the range is inclusive with both bounds
required, generation fails with InvalidRange when dateFrom exceeds dateTo,
and otherwise the summary is aggregated over the records falling inside the
range. -/
def generateReportForRange (dateFrom dateTo : Nat)
    (records : List AttendanceRecord) : Except ReportError AttendanceSummary :=
  if dateTo < dateFrom then Except.error ReportError.invalidRange
  else Except.ok (attendanceSummary (records.filter
    (fun r => decide (dateFrom ≤ r.date) && decide (r.date ≤ dateTo))))

/-- Modelled from the spec: applyAutoCheckoutIfDue (spec section 4.1) lives in
the backend, which is absent from src/. Given a record with an open check-in
whose age reached the ceiling it forces the check-out at check_in_time plus
ceiling, marks is_auto_checkout and freezes working_minutes at the ceiling;
otherwise, and for every record missing a check-in or already carrying a
check-out, it returns the record unchanged. -/
def applyAutoCheckoutIfDue (r : AttendanceRecord) (now ceiling : Nat) :
    AttendanceRecord :=
  match r.check_in_time, r.check_out_time with
  | some ci, none =>
      if ci + ceiling ≤ now then
        { r with
          check_out_time := some (ci + ceiling)
          is_auto_checkout := true
          working_minutes := ceiling }
      else r
  | _, _ => r

/-- Sample record that is already checked out, used to instantiate the
idempotence theorem: checked in at minute 540, checked out at minute 1050. -/
def sampleCheckedOut : AttendanceRecord :=
  { employee_id := "E1"
    date := 0
    status := AttStatus.present
    check_in_time := some 540
    check_out_time := some 1050
    is_auto_checkout := false
    working_minutes := 510 }

/-- Sample filter state with both date bounds present and no employee or
department selected, used to instantiate guard theorems. -/
def sampleFilters : Filters := ⟨"2026-01-01", "2026-01-31", "", ""⟩

/-- Sample Reports component state holding a previously generated report,
used to instantiate the state-preservation theorems. -/
def sampleState : ReportsState Nat := ⟨some 7, some 5, "", []⟩

theorem foldl_tally_present (l : List AttendanceRecord) (c : SummaryCounts) :
    (l.foldl tallyRecord c).present_count
      = c.present_count
        + l.countP (fun r => decide (r.status = AttStatus.present)) := by
  induction l generalizing c with
  | nil => simp
  | cons r t ih =>
      cases hs : r.status <;>
        simp [tallyRecord, hs, ih, List.countP_cons, Nat.add_assoc, Nat.add_comm,
          Nat.add_left_comm]

theorem foldl_tally_late (l : List AttendanceRecord) (c : SummaryCounts) :
    (l.foldl tallyRecord c).late_count
      = c.late_count + l.countP (fun r => decide (r.status = AttStatus.late)) := by
  induction l generalizing c with
  | nil => simp
  | cons r t ih =>
      cases hs : r.status <;>
        simp [tallyRecord, hs, ih, List.countP_cons, Nat.add_assoc, Nat.add_comm,
          Nat.add_left_comm]

theorem calculateAttendanceRate_eq_specRate (p l t : Nat) :
    calculateAttendanceRate (p + l) t = specAttendanceRate p l t := by
  unfold calculateAttendanceRate specAttendanceRate specRound
  by_cases h : t = 0
  · simp [h]
  · rw [if_neg h, if_neg h]
    congr 1
    omega

/-- C2: for every filtered record set, the Attendance Summary's
attendance_rate equals round of 100 * (present + late) / total with total the
count of non-empty days in range, and a zero total (in particular a range
with zero matching records) yields rate 0 rather than a division error. -/
theorem spec_c2 : ∀ records : List AttendanceRecord,
    (attendanceSummary records).attendance_rate
      = specAttendanceRate
          (records.countP (fun r => decide (r.status = AttStatus.present)))
          (records.countP (fun r => decide (r.status = AttStatus.late)))
          records.length ∧
    (attendanceSummary []).attendance_rate = 0 := by
  intro records
  refine ⟨?_, rfl⟩
  show calculateAttendanceRate _ _ = _
  rw [foldl_tally_present, foldl_tally_late]
  simpa using calculateAttendanceRate_eq_specRate
    (records.countP (fun r => decide (r.status = AttStatus.present)))
    (records.countP (fun r => decide (r.status = AttStatus.late)))
    records.length

/-- C3: a Department Report requested with no department, or an Employee
Performance report with no employee, fails the missing-filter guard: an error
is reported and no report-generation call is made. -/
theorem spec_c3 : ∀ (α : Type) (filters : Filters) (apiResult : Except String α)
    (now : Nat) (st : ReportsState α),
    (filters.dateFrom ≠ "" → filters.dateTo ≠ "" → filters.employeeId = "" →
      (generateReport "employee-performance" filters apiResult now st).2 = false ∧
      (generateReport "employee-performance" filters apiResult now st).1.error
        = "Please select an employee for performance report") ∧
    (filters.dateFrom ≠ "" → filters.dateTo ≠ "" → filters.department = "" →
      (generateReport "department" filters apiResult now st).2 = false ∧
      (generateReport "department" filters apiResult now st).1.error
        = "Please select a department for department report") := by
  intro α filters apiResult now st
  constructor
  · intro h1 h2 h3
    unfold generateReport
    rw [if_neg (by decide), if_neg (not_or.mpr ⟨h1, h2⟩), if_pos ⟨rfl, h3⟩]
    exact ⟨rfl, rfl⟩
  · intro h1 h2 h3
    unfold generateReport
    rw [if_neg (by decide), if_neg (not_or.mpr ⟨h1, h2⟩),
      if_neg (fun hc => absurd hc.1 (by decide)), if_pos ⟨rfl, h3⟩]
    exact ⟨rfl, rfl⟩

theorem spec_c3_witness :
    ((generateReport "employee-performance" sampleFilters (Except.ok (0 : Nat)) 0
        sampleState).2 = false ∧
      (generateReport "employee-performance" sampleFilters (Except.ok (0 : Nat)) 0
        sampleState).1.error
        = "Please select an employee for performance report") ∧
    ((generateReport "department" sampleFilters (Except.ok (0 : Nat)) 0
        sampleState).2 = false ∧
      (generateReport "department" sampleFilters (Except.ok (0 : Nat)) 0
        sampleState).1.error
        = "Please select a department for department report") :=
  ⟨(spec_c3 Nat sampleFilters (Except.ok 0) 0 sampleState).1
      (by decide) (by decide) rfl,
   (spec_c3 Nat sampleFilters (Except.ok 0) 0 sampleState).2
      (by decide) (by decide) rfl⟩

/-- C4: applyAutoCheckoutIfDue is idempotent on completed records: a record
that already has check_out_time set is returned unchanged for every now, and
applying the function twice in succession to it equals applying it once. -/
theorem spec_c4 : ∀ (r : AttendanceRecord) (now now2 ceiling : Nat),
    r.check_out_time.isSome = true →
    applyAutoCheckoutIfDue r now ceiling = r ∧
    applyAutoCheckoutIfDue (applyAutoCheckoutIfDue r now ceiling) now2 ceiling
      = applyAutoCheckoutIfDue r now ceiling := by
  intro r now now2 ceiling h
  have key : ∀ n : Nat, applyAutoCheckoutIfDue r n ceiling = r := by
    intro n
    rcases hout : r.check_out_time with _ | co
    · rw [hout] at h
      simp at h
    · cases hin : r.check_in_time <;> simp [applyAutoCheckoutIfDue, hin, hout]
  refine ⟨key now, ?_⟩
  rw [key now]
  exact key now2

theorem spec_c4_witness :
    applyAutoCheckoutIfDue sampleCheckedOut 2000 600 = sampleCheckedOut ∧
    applyAutoCheckoutIfDue (applyAutoCheckoutIfDue sampleCheckedOut 2000 600)
        3000 600 = applyAutoCheckoutIfDue sampleCheckedOut 2000 600 :=
  spec_c4 sampleCheckedOut 2000 3000 600 (by decide)

/-- C5: for every nonnegative whole-minute count m, formatDuration renders
the label built from m div 60 hours and m mod 60 minutes (a 570-minute span
renders "9h 30m"), and zero or missing input renders "0h 0m"; the function
is total, so it never throws on absent input. -/
theorem spec_c5 : ∀ m : Nat,
    formatDuration (some (m : Int))
      = toString (m / 60) ++ "h " ++ toString (m % 60) ++ "m" ∧
    formatDuration none = "0h 0m" ∧
    formatDuration (some 570) = "9h 30m" := by
  intro m
  refine ⟨?_, rfl, by decide⟩
  cases m with
  | zero => decide
  | succ n =>
      have hpos : ¬((n + 1 : Nat) : Int) ≤ 0 := by omega
      simp only [formatDuration, if_neg hpos]
      rfl

theorem performAutoRefresh_snapshot_iter (n : Nat) :
    (performAutoRefresh 0 false)^[n] ⟨0, true, true, 3, []⟩
      = (⟨n, true, true, 3, []⟩ : RefreshCtl) := by
  induction n with
  | zero => rfl
  | succ k ih => rw [Function.iterate_succ_apply', ih]; rfl

/-- C1: evaluation of performAutoRefresh at pauseOnError true, maxRetries 3
along the failing trace: the interval was created while retryCount was 0, so
every invocation of the closure runs the line-92 pause test against the
captured snapshot 0. The claim says the controller pauses, and notifies, as
soon as consecutive failures reach maxRetries and never retries past that
budget; in the code the stored counter does climb by one per failure, but
after any number n of consecutive failures — in particular 3 and beyond —
auto-refresh is still enabled and no notification was emitted: the pause
never fires during the streak. A successful refresh does reset the stored
counter to 0. -/
theorem spec_c1 : ∀ n : Nat,
    ((performAutoRefresh 0 false)^[n] ⟨0, true, true, 3, []⟩).retryCount = n ∧
    ((performAutoRefresh 0 false)^[n] ⟨0, true, true, 3, []⟩).enabled = true ∧
    ((performAutoRefresh 0 false)^[n] ⟨0, true, true, 3, []⟩).notifications
      = [] ∧
    (performAutoRefresh 0 true ⟨2, true, true, 3, []⟩).retryCount = 0 := by
  intro n
  rw [performAutoRefresh_snapshot_iter n]
  exact ⟨rfl, rfl, rfl, rfl⟩

/-- C6: evaluation of the refresh trigger loop. The claim says a tick firing
while a refresh is in flight is skipped; the guard however tests the
isRefreshing snapshot captured when the interval was created, so with a
false snapshot two ticks with no completion in between issue two concurrent
report-generation calls, and with a true snapshot every tick is skipped even
when nothing is in flight. -/
theorem spec_c6 :
    triggerLoop false [RefreshEvent.tick, RefreshEvent.tick] 0 = 2 ∧
    triggerLoop true [RefreshEvent.tick, RefreshEvent.tick] 0 = 0 := by
  decide

/-- C7: evaluation of stopAutoRefresh. The claim says every disable path,
including discarding the view, clears both timers. The effect cleanup runs
the stopAutoRefresh closure of the render that registered it, whose interval
handles are still null because the timers it must clear were created and
committed only afterwards: with null handles nothing is cleared and both
live timers 1 and 2 are orphaned. Only a closure holding the current handles
clears both. -/
theorem spec_c7 :
    stopAutoRefresh none none [1, 2] = [1, 2] ∧
    stopAutoRefresh (some 1) (some 2) [1, 2] = [] := by
  decide

/-- C8: report generation requires both date bounds (the guard reports the
missing range and makes no report call), and on a range whose lower bound
exceeds its upper bound the aggregator fails with InvalidRange, so no report
is produced. -/
theorem spec_c8 :
    (∀ (α : Type) (reportType : String) (filters : Filters)
        (apiResult : Except String α) (now : Nat) (st : ReportsState α),
        reportType ≠ "" → (filters.dateFrom = "" ∨ filters.dateTo = "") →
        (generateReport reportType filters apiResult now st).2 = false ∧
        (generateReport reportType filters apiResult now st).1.error
          = "Please select date range") ∧
    (∀ (dateFrom dateTo : Nat) (records : List AttendanceRecord),
        dateTo < dateFrom →
        generateReportForRange dateFrom dateTo records
          = Except.error ReportError.invalidRange) := by
  constructor
  · intro α reportType filters apiResult now st h1 h2
    unfold generateReport
    rw [if_neg h1, if_pos h2]
    exact ⟨rfl, rfl⟩
  · intro dateFrom dateTo records h
    unfold generateReportForRange
    rw [if_pos h]

theorem spec_c8_witness :
    ((generateReport "attendance-summary" (⟨"", "2026-01-31", "", ""⟩ : Filters)
        (Except.ok (0 : Nat)) 0 sampleState).2 = false ∧
      (generateReport "attendance-summary" (⟨"", "2026-01-31", "", ""⟩ : Filters)
        (Except.ok (0 : Nat)) 0 sampleState).1.error
        = "Please select date range") ∧
    generateReportForRange 7 3 [] = Except.error ReportError.invalidRange :=
  ⟨spec_c8.1 Nat "attendance-summary" ⟨"", "2026-01-31", "", ""⟩ (Except.ok 0) 0
      sampleState (by decide) (Or.inl rfl),
   spec_c8.2 7 3 [] (by decide)⟩

/-- C9: exporting a generated report produces the serialization of the report
object under the filename built as reportType-report-today.json with today
the current day, together with a success notification; exporting with no
report data produces no file and only a warning. -/
theorem spec_c9 : ∀ (α : Type) (stringify : α → String)
    (reportType today : String) (d : α),
    (exportReport stringify reportType today (some d)).file
      = some (reportType ++ "-report-" ++ today ++ ".json", stringify d) ∧
    (exportReport stringify reportType today (some d)).notifications
      = ["Report exported as " ++ (reportType ++ "-report-" ++ today ++ ".json")] ∧
    (exportReport stringify reportType today (none : Option α)).file = none ∧
    (exportReport stringify reportType today (none : Option α)).notifications
      = ["No report data to export"] :=
  fun _ _ _ _ _ => ⟨rfl, rfl, rfl, rfl⟩

/-- C10: whenever the report call of generateReport is actually issued and
fails, the previously stored reportData and lastGenerated stamp are left
unchanged and only the error message is set. -/
theorem spec_c10 : ∀ (α : Type) (reportType : String) (filters : Filters)
    (msg : String) (now : Nat) (st : ReportsState α),
    (generateReport reportType filters (Except.error msg) now st).2 = true →
    (generateReport reportType filters (Except.error msg) now st).1.reportData
        = st.reportData ∧
    (generateReport reportType filters (Except.error msg) now st).1.lastGenerated
        = st.lastGenerated ∧
    (generateReport reportType filters (Except.error msg) now st).1.error
        = msg := by
  intro α reportType filters msg now st h
  unfold generateReport at h ⊢
  split_ifs at h ⊢
  simp_all

theorem spec_c10_witness :
    (generateReport "attendance-summary" sampleFilters
        (Except.error "Network Error") 9 sampleState).1.reportData = some 7 ∧
    (generateReport "attendance-summary" sampleFilters
        (Except.error "Network Error") 9 sampleState).1.lastGenerated = some 5 ∧
    (generateReport "attendance-summary" sampleFilters
        (Except.error "Network Error") 9 sampleState).1.error = "Network Error" :=
  spec_c10 Nat "attendance-summary" sampleFilters "Network Error" 9 sampleState
    (by decide)
